import Mathlib

/-!
Shallow embedding of `src/lib/logger/browser.js`: a namespaced browser logging
facade with a shared mutable filter state, level-based filtering, caller-context
extraction from stack traces, and optional Raven error escalation.

Modelling conventions:
* JavaScript values passed to the logging methods are modelled by `JSValue`
  (strings, numbers, booleans, and composite objects).
* The shared static state (`Logger._level`, `Logger._silent`,
  `Logger._shouldLogReplicants`) is the structure `LoggerGlobals`; methods take
  it as an explicit argument and configuration returns the updated state.
* A sink invocation (`console[logLevel].apply(console, logMessage)`) is the
  record `SinkCall`; a method call's observable output is an `Option SinkCall`
  (`none` = suppressed, the method returned before reaching the sink).
* The Raven escalation (`Raven.captureException(...)`) is the record
  `RavenCapture`; `Option RavenCapture` models zero or exactly one capture.
* The stack-trace string produced by `new Error().stack` is an input parameter
  of each call, since it comes from the host environment.
-/

namespace BrowserLogger

/-- Rank of a level name as read from the `LOG_LEVELS` table: a finite number
for the five names, `Infinity` for `_infinite`, and `undefined` for any other
string (a missing property access in JavaScript). -/
inductive JSRank where
  | fin (n : Nat)
  | inf
  | undefined
deriving DecidableEq, Repr

/-- The `LOG_LEVELS` table of the source: `trace: 0, debug: 1, info: 2,
warn: 3, error: 4, _infinite: Infinity`; any other key reads as `undefined`. -/
def LOG_LEVELS : String → JSRank
  | "trace" => .fin 0
  | "debug" => .fin 1
  | "info" => .fin 2
  | "warn" => .fin 3
  | "error" => .fin 4
  | "_infinite" => .inf
  | _ => .undefined

/-- JavaScript comparison `r > n` for `r` a `LOG_LEVELS` lookup and `n` a known
finite rank: `Infinity > n` is true, and `undefined > n` is false (because
`undefined` converts to `NaN` and every comparison with `NaN` is false). -/
def jsGtNat : JSRank → Nat → Bool
  | .fin m, n => decide (n < m)
  | .inf, _ => true
  | .undefined, _ => false

mutual
/-- A JavaScript value handed to a logging method: a primitive (string, number,
boolean) or a composite object with named fields. -/
inductive JSValue where
  | str (s : String)
  | num (n : Int)
  | bool (b : Bool)
  | obj (fields : JSFields)
deriving DecidableEq, Repr
/-- Field list of a composite JavaScript object. -/
inductive JSFields where
  | nil
  | cons (key : String) (v : JSValue) (rest : JSFields)
deriving DecidableEq, Repr
end

/-- The `typeof argument === 'object'` test used by `Logger.error`. -/
def isObject : JSValue → Bool
  | .obj _ => true
  | _ => false

mutual
/-- Modelled from Node's `util.inspect(v, {depth: null, showProxy: true})`: a
deep textual rendering of a value with no depth limit (nested objects are
rendered recursively, all the way down). Primitives render as themselves. -/
def inspect : JSValue → String
  | .str s => s
  | .num n => toString n
  | .bool b => cond b "true" "false"
  | .obj fields => "\x7b" ++ inspectFields fields ++ "\x7d"
/-- Deep rendering of an object's field list, `key: value` pairs separated by
commas. -/
def inspectFields : JSFields → String
  | .nil => ""
  | .cons k v rest =>
    " " ++ k ++ ": " ++ inspect v ++ (match rest with | .nil => " " | _ => ",") ++ inspectFields rest
end

/-- How `util.format` stringifies one argument that is not the format string:
strings pass through, other values are rendered. -/
def toDisplay : JSValue → String
  | .str s => s
  | v => inspect v

/-- Modelled from Node's `util.format(f, ...args)` in the case relevant here
(the first argument is the bracketed logger name, which contains no recognized
format specifier): the format string and the stringified arguments joined with
single spaces. -/
def formatJS (f : String) (args : List JSValue) : String :=
  args.foldl (fun acc v => acc ++ " " ++ toDisplay v) f

/-- The argument transformation inside `Logger.error` before escalation:
`typeof argument === 'object' ? inspect(argument, {depth: null, showProxy:
true}) : argument` — composite values become their deep rendering, primitives
pass through unchanged. -/
def formatArg (v : JSValue) : JSValue :=
  if isObject v then .str (inspect v) else v

/-- JavaScript `String.prototype.split(sep)` for a one-character separator,
acting on the character list of the string. Splitting the empty string yields
one empty piece, as in JavaScript. -/
def splitOnChar (sep : Char) : List Char → List (List Char)
  | [] => [[]]
  | c :: rest =>
    match splitOnChar sep rest with
    | [] => [[c]]
    | l :: ls => if c = sep then [] :: l :: ls else (c :: l) :: ls

/-- Leading-space removal, the `^ *` part of the two stripping regexes. -/
def dropLeadingSpaces : List Char → List Char
  | ' ' :: rest => dropLeadingSpaces rest
  | cs => cs

/-- Whether the second list starts with the first. -/
def charsStartWith : List Char → List Char → Bool
  | [], _ => true
  | _ :: _, [] => false
  | p :: ps, c :: cs => if p = c then charsStartWith ps cs else false

/-- The Chrome-format stripping `caller.replace(/^ *at /, '')`: if the line is
some spaces followed by `at `, the matched part is removed; otherwise the line
is unchanged. -/
def stripChrome (s : String) : String :=
  let t := dropLeadingSpaces s.data
  if charsStartWith ['a', 't', ' '] t then String.mk (t.drop 3) else s

/-- The Firefox-format stripping `caller.replace(/^ *@/, '')`: if the line is
some spaces followed by `@`, the matched part is removed; otherwise the line is
unchanged. -/
def stripFirefox (s : String) : String :=
  let t := dropLeadingSpaces s.data
  if charsStartWith ['@'] t then String.mk (t.drop 1) else s

/-- Caller-context extraction from `Logger._invoke`: split the stack-trace
string into lines, take the fourth line when there are at least four lines and
the empty string otherwise, then apply the Chrome and Firefox strippings. -/
def extractCaller (stack : String) : String :=
  let stackTrace := splitOnChar '\n' stack.data
  let caller := if 4 ≤ stackTrace.length then String.mk (stackTrace.getD 3 []) else ""
  stripFirefox (stripChrome caller)

/-- The shared static state of the `Logger` class: `Logger._level`,
`Logger._silent` (the negation of console enablement) and
`Logger._shouldLogReplicants`. -/
structure LoggerGlobals where
  _level : String
  _silent : Bool
  _shouldLogReplicants : Bool
deriving DecidableEq, Repr

/-- The `opts.console` part of a configuration value: `enabled` and `level`,
each possibly absent (`undefined`). -/
structure ConsoleOpts where
  enabled : Option Bool
  level : Option String
deriving DecidableEq, Repr

/-- A configuration value passed to the factory or to `globalReconfigure`:
`console` and `replicants`, each possibly absent. -/
structure Opts where
  console : Option ConsoleOpts
  replicants : Option Bool
deriving DecidableEq, Repr

/-- The `_configure(opts)` function: defaults absent objects to empty ones,
then updates exactly the fields that are present (`typeof ... !== 'undefined'`),
leaving each absent field at its current value. -/
def _configure (g : LoggerGlobals) (opts0 : Option Opts) : LoggerGlobals :=
  let opts := opts0.getD (Opts.mk none none)
  let con := opts.console.getD (ConsoleOpts.mk none none)
  let g1 :=
    match con.enabled with
    | some enabled => { g with _silent := !enabled }
    | none => g
  let g2 :=
    match con.level with
    | some level => { g1 with _level := level }
    | none => g1
  match opts.replicants with
  | some replicants => { g2 with _shouldLogReplicants := replicants }
  | none => g2

/-- The module factory (`module.exports = function (initialOpts, Raven)`),
restricted to the state it establishes: the defaults `_level = 'info'`,
`_silent = true`, `_shouldLogReplicants = false`, then `_configure(initialOpts)`
with the given (possibly absent) initial configuration. -/
def loggerFactory (initialOpts : Option Opts) : LoggerGlobals :=
  _configure (LoggerGlobals.mk "info" true false) initialOpts

/-- The static `Logger.globalReconfigure(opts)`: it just calls `_configure`. -/
def Logger.globalReconfigure (g : LoggerGlobals) (opts : Option Opts) : LoggerGlobals :=
  _configure g opts

/-- A `Logger` instance: its only per-instance datum is the `name` assigned by
the constructor. -/
structure LoggerInst where
  name : String
deriving DecidableEq, Repr

/-- The `Logger` constructor `new Logger(name)`: stores the name. -/
def Logger.new (name : String) : LoggerInst :=
  LoggerInst.mk name

/-- One sink invocation `console[logLevel].apply(console, logMessage)`: the
channel name and the forwarded message sequence. -/
structure SinkCall where
  channel : String
  message : List JSValue
deriving DecidableEq, Repr

/-- A JavaScript `Error` value constructed by the escalation path; it wraps the
formatted message string. -/
structure JSError where
  message : String
deriving DecidableEq, Repr

/-- One invocation of `Raven.captureException(exn, {logger: ...})`: the error
value and the classification tag. -/
structure RavenCapture where
  exn : JSError
  logger : String
deriving DecidableEq, Repr

/-- The observable effect of one logging call: at most one sink invocation and
at most one Raven capture. -/
structure EmitResult where
  sink : Option SinkCall
  escalation : Option RavenCapture
deriving DecidableEq, Repr

/-- `Logger.prototype._invoke(logLevel, args)` with the default third argument:
builds the message sequence `[prefix].concat(args.concat([caller]))`, where the
bracketed prefix is computed from `this.name` at call time and the caller
context is extracted from a stack trace captured at call time, and forwards it
to the sink channel named by `logLevel`. -/
def Logger._invoke (logLevel : String) (inst : LoggerInst) (args : List JSValue)
    (stack : String) : SinkCall :=
  SinkCall.mk logLevel
    (JSValue.str ("[" ++ inst.name ++ "]") :: (args ++ [JSValue.str (extractCaller stack)]))

/-- `Logger.prototype.trace`: returns early when `Logger._silent` or when
`LOG_LEVELS[Logger._level] > LOG_LEVELS.trace` (= 0); otherwise invokes the
`'info'` sink channel. -/
def Logger.trace (g : LoggerGlobals) (inst : LoggerInst) (args : List JSValue)
    (stack : String) : Option SinkCall :=
  if g._silent then none
  else if jsGtNat (LOG_LEVELS g._level) 0 then none
  else some (Logger._invoke "info" inst args stack)

/-- `Logger.prototype.debug`: like `trace` with threshold `LOG_LEVELS.debug`
(= 1); invokes the `'info'` sink channel. -/
def Logger.debug (g : LoggerGlobals) (inst : LoggerInst) (args : List JSValue)
    (stack : String) : Option SinkCall :=
  if g._silent then none
  else if jsGtNat (LOG_LEVELS g._level) 1 then none
  else some (Logger._invoke "info" inst args stack)

/-- `Logger.prototype.info`: threshold `LOG_LEVELS.info` (= 2); invokes the
`'info'` sink channel. -/
def Logger.info (g : LoggerGlobals) (inst : LoggerInst) (args : List JSValue)
    (stack : String) : Option SinkCall :=
  if g._silent then none
  else if jsGtNat (LOG_LEVELS g._level) 2 then none
  else some (Logger._invoke "info" inst args stack)

/-- `Logger.prototype.warn`: threshold `LOG_LEVELS.warn` (= 3); invokes the
`'warn'` sink channel. -/
def Logger.warn (g : LoggerGlobals) (inst : LoggerInst) (args : List JSValue)
    (stack : String) : Option SinkCall :=
  if g._silent then none
  else if jsGtNat (LOG_LEVELS g._level) 3 then none
  else some (Logger._invoke "warn" inst args stack)

/-- `Logger.prototype.error`: threshold `LOG_LEVELS.error` (= 4); invokes the
`'error'` sink channel, and then, when a Raven client was supplied to the
factory, calls `Raven.captureException(new Error(format(prefix,
...formattedArgs)), {logger: 'client @nodecg/logger'})`. -/
def Logger.error (g : LoggerGlobals) (raven : Bool) (inst : LoggerInst)
    (args : List JSValue) (stack : String) : Option SinkCall × Option RavenCapture :=
  if g._silent then (none, none)
  else if jsGtNat (LOG_LEVELS g._level) 4 then (none, none)
  else
    (some (Logger._invoke "error" inst args stack),
     if raven then
       some (RavenCapture.mk
         (JSError.mk (formatJS ("[" ++ inst.name ++ "]") (args.map formatArg)))
         "client @nodecg/logger")
     else none)

/-- `Logger.prototype.replicants`: returns early when `Logger._silent` or when
`Logger._shouldLogReplicants` is false; otherwise invokes the `'info'` sink
channel exactly as `info` does. The level threshold is never consulted and the
body contains no Raven call. -/
def Logger.replicants (g : LoggerGlobals) (inst : LoggerInst) (args : List JSValue)
    (stack : String) : Option SinkCall :=
  if g._silent then none
  else if !g._shouldLogReplicants then none
  else some (Logger._invoke "info" inst args stack)

/-- The six public emission methods of a `Logger` instance. -/
inductive Method where
  | trace
  | debug
  | info
  | warn
  | error
  | replicants
deriving DecidableEq, Repr

/-- Dispatch of one emission call to the corresponding method, collecting both
observable effects. Only `error` can escalate; every other method's body
contains no Raven call, so its escalation component is `none`. -/
def Logger.call (m : Method) (g : LoggerGlobals) (raven : Bool) (inst : LoggerInst)
    (args : List JSValue) (stack : String) : EmitResult :=
  match m with
  | .trace => EmitResult.mk (Logger.trace g inst args stack) none
  | .debug => EmitResult.mk (Logger.debug g inst args stack) none
  | .info => EmitResult.mk (Logger.info g inst args stack) none
  | .warn => EmitResult.mk (Logger.warn g inst args stack) none
  | .error =>
    let r := Logger.error g raven inst args stack
    EmitResult.mk r.1 r.2
  | .replicants => EmitResult.mk (Logger.replicants g inst args stack) none

/-- The five leveled methods (everything except `replicants`). -/
inductive LevelName where
  | trace
  | debug
  | info
  | warn
  | error
deriving DecidableEq, Repr

/-- The rank of each leveled method, as in `LOG_LEVELS`. -/
def LevelName.rank : LevelName → Nat
  | .trace => 0
  | .debug => 1
  | .info => 2
  | .warn => 3
  | .error => 4

/-- The `Method` corresponding to a leveled method. -/
def LevelName.toMethod : LevelName → Method
  | .trace => .trace
  | .debug => .debug
  | .info => .info
  | .warn => .warn
  | .error => .error

/-- Modelled from the claim's rank order: the call's rank is not strictly less
than the threshold's rank, where the five named levels carry their finite ranks
and the sentinel level sits above all of them (an unknown threshold is outside
the claim's order and passes nothing here). -/
def specLevelPasses (callRank : Nat) (threshold : JSRank) : Bool :=
  match threshold with
  | .fin m => decide (m ≤ callRank)
  | .inf => false
  | .undefined => false

/-- Whether a configuration value sets `console.enabled` to `true` (the only
way a reconfiguration can enable console output). -/
def enablesConsole (opts : Option Opts) : Bool :=
  decide (((opts.getD (Opts.mk none none)).console.getD (ConsoleOpts.mk none none)).enabled
    = some true)


/-- For a threshold actually present in `LOG_LEVELS`, failing the strict
greater-than suppression test is the same as the claim's rank comparison. -/
theorem not_jsGtNat_eq (r : JSRank) (n : Nat) (h : r ≠ JSRank.undefined) :
    (!jsGtNat r n) = specLevelPasses n r := by
  cases r with
  | fin m =>
    rcases Nat.lt_or_ge n m with hlt | hge
    · simp [jsGtNat, specLevelPasses, hlt, Nat.not_le.mpr hlt]
    · simp [jsGtNat, specLevelPasses, hge, Nat.not_lt.mpr hge]
  | inf => rfl
  | undefined => exact absurd rfl h

/-- Every method returns before any side effect when `Logger._silent`. -/
theorem silent_none (m : Method) (g : LoggerGlobals) (raven : Bool) (inst : LoggerInst)
    (args : List JSValue) (stack : String) (h : g._silent = true) :
    Logger.call m g raven inst args stack = EmitResult.mk none none := by
  cases m <;>
    simp [Logger.call, Logger.trace, Logger.debug, Logger.info, Logger.warn, Logger.error,
      Logger.replicants, h]

/-- Shape of the `_silent` field after `_configure`. -/
theorem configure_silent_eq (g : LoggerGlobals) (o : Option Opts) :
    (_configure g o)._silent =
      (match ((o.getD (Opts.mk none none)).console.getD (ConsoleOpts.mk none none)).enabled with
       | some e => !e
       | none => g._silent) := by
  rcases o with _ | ⟨co, ro⟩
  · rfl
  · rcases co with _ | ⟨en, lv⟩
    · rcases ro with _ | r <;> rfl
    · rcases en with _ | e <;> rcases lv with _ | l <;> rcases ro with _ | r <;> rfl

/-- Shape of the `_level` field after `_configure`. -/
theorem configure_level_eq (g : LoggerGlobals) (o : Option Opts) :
    (_configure g o)._level =
      (match ((o.getD (Opts.mk none none)).console.getD (ConsoleOpts.mk none none)).level with
       | some l => l
       | none => g._level) := by
  rcases o with _ | ⟨co, ro⟩
  · rfl
  · rcases co with _ | ⟨en, lv⟩
    · rcases ro with _ | r <;> rfl
    · rcases en with _ | e <;> rcases lv with _ | l <;> rcases ro with _ | r <;> rfl

/-- Shape of the `_shouldLogReplicants` field after `_configure`. -/
theorem configure_repl_eq (g : LoggerGlobals) (o : Option Opts) :
    (_configure g o)._shouldLogReplicants =
      (match (o.getD (Opts.mk none none)).replicants with
       | some r => r
       | none => g._shouldLogReplicants) := by
  rcases o with _ | ⟨co, ro⟩
  · rfl
  · rcases co with _ | ⟨en, lv⟩
    · rcases ro with _ | r <;> rfl
    · rcases en with _ | e <;> rcases lv with _ | l <;> rcases ro with _ | r <;> rfl

/-- Claim C1: for every leveled emission call (`trace`, `debug`, `info`,
`warn`, `error`) made while the current level is a key of `LOG_LEVELS` (one of
the five level names or the sentinel), the call produces a sink invocation if
and only if console output is enabled (`_silent` false) and the call's rank is
not strictly less than the threshold's rank, the sentinel ranking above all. -/
theorem c1_level_filter (g : LoggerGlobals) (raven : Bool) (inst : LoggerInst)
    (args : List JSValue) (stack : String) (l : LevelName)
    (h : LOG_LEVELS g._level ≠ JSRank.undefined) :
    (Logger.call l.toMethod g raven inst args stack).sink.isSome =
      (!g._silent && specLevelPasses l.rank (LOG_LEVELS g._level)) := by
  cases hs : g._silent with
  | true => rw [silent_none l.toMethod g raven inst args stack hs]; rfl
  | false =>
    cases l <;>
      simp only [LevelName.toMethod, LevelName.rank, Logger.call, Logger.trace, Logger.debug,
        Logger.info, Logger.warn, Logger.error, hs, Bool.false_eq_true, if_false,
        Bool.not_false, Bool.true_and] <;>
      rw [← not_jsGtNat_eq _ _ h] <;>
      cases jsGtNat (LOG_LEVELS g._level) _ <;> simp

/-- Witness for C1 at a concrete state: threshold `info`, console enabled, an
`info` call; the filter formula evaluates to `true` and the call emits. -/
theorem c1_witness :
    (Logger.call LevelName.info.toMethod (LoggerGlobals.mk "info" false false) false
        (Logger.new "db") [] "").sink.isSome =
      (!(LoggerGlobals.mk "info" false false)._silent &&
        specLevelPasses LevelName.info.rank (LOG_LEVELS (LoggerGlobals.mk "info" false false)._level)) :=
  c1_level_filter (LoggerGlobals.mk "info" false false) false (Logger.new "db") [] ""
    LevelName.info (by decide)

/-- Claim C2 counterexample: configure through the factory with console enabled
and the unknown level string `"verbose"`; an `info` call then produces a sink
invocation, so the claim that every leveled call is suppressed is false. The
reason: `LOG_LEVELS['verbose']` is `undefined`, and the suppression test
`undefined > 2` is false in JavaScript, so the method proceeds to emission. -/
theorem c2_counterexample :
    (Logger.call Method.info
        (loggerFactory (some (Opts.mk (some (ConsoleOpts.mk (some true) (some "verbose"))) none)))
        false (Logger.new "test") [] "").sink ≠ none := by
  decide

/-- Claim C2 amended: when the current level is a string that is not a key of
`LOG_LEVELS` (so neither one of the five level names nor the sentinel), with
console enabled, every leveled emission call produces a sink invocation — the
unknown level degrades to allowing everything, because every suppression
comparison against its `undefined` rank is false. -/
theorem c2_unknown_level_allows (g : LoggerGlobals) (raven : Bool) (inst : LoggerInst)
    (args : List JSValue) (stack : String) (l : LevelName)
    (h : LOG_LEVELS g._level = JSRank.undefined) (hs : g._silent = false) :
    (Logger.call l.toMethod g raven inst args stack).sink.isSome = true := by
  cases l <;>
    simp [Logger.call, LevelName.toMethod, Logger.trace, Logger.debug, Logger.info, Logger.warn,
      Logger.error, hs, h, jsGtNat]

/-- Witness for the amended C2: level `"verbose"`, console enabled, a `trace`
call emits. -/
theorem c2_witness :
    (Logger.call LevelName.trace.toMethod (LoggerGlobals.mk "verbose" false false) false
        (Logger.new "t") [] "").sink.isSome = true :=
  c2_unknown_level_allows (LoggerGlobals.mk "verbose" false false) false (Logger.new "t") [] ""
    LevelName.trace (by decide) (by decide)

/-- Claim C3: a `replicants` call is suppressed exactly when console output is
disabled or replicant logging is disabled; the level threshold plays no role
(changing `_level` never changes the call's result); when not suppressed it
performs the same `'info'`-channel invocation, with the same prefix and
caller-context sequence, that `info` performs; and it never escalates to the
error-reporting capability. -/
theorem c3_replicants (g : LoggerGlobals) (raven : Bool) (inst : LoggerInst)
    (args : List JSValue) (stack : String) (lvl : String) :
    ((Logger.call Method.replicants g raven inst args stack).sink = none ↔
        g._silent = true ∨ g._shouldLogReplicants = false) ∧
    (g._silent = false → g._shouldLogReplicants = true →
        (Logger.call Method.replicants g raven inst args stack).sink =
          some (Logger._invoke "info" inst args stack)) ∧
    (Logger.call Method.replicants { g with _level := lvl } raven inst args stack =
        Logger.call Method.replicants g raven inst args stack) ∧
    (Logger.call Method.replicants g raven inst args stack).escalation = none := by
  refine ⟨?_, ?_, rfl, rfl⟩
  · cases hs : g._silent <;> cases hr : g._shouldLogReplicants <;>
      simp [Logger.call, Logger.replicants, hs, hr]
  · intro hs hr
    simp [Logger.call, Logger.replicants, hs, hr]

/-- Witness for C3 at a concrete state: threshold `"error"` would block `info`,
yet with replicant logging enabled the `replicants` call emits the
`'info'`-channel invocation. -/
theorem c3_witness :
    (Logger.call Method.replicants (LoggerGlobals.mk "error" false true) false
        (Logger.new "r") [JSValue.str "x"] "").sink =
      some (Logger._invoke "info" (Logger.new "r") [JSValue.str "x"] "") :=
  (c3_replicants (LoggerGlobals.mk "error" false true) false (Logger.new "r")
    [JSValue.str "x"] "" "error").2.1 rfl rfl

/-- Claim C4: `globalReconfigure` applies a partial update — each of the three
fields keeps its current value when the corresponding entry is absent from the
partial configuration — and reconfiguring with a wholly absent or empty value
changes nothing at all (a no-op, hence idempotent). -/
theorem c4_partial_reconfigure (g : LoggerGlobals) (opts : Opts) :
    ((opts.console.getD (ConsoleOpts.mk none none)).enabled = none →
        (Logger.globalReconfigure g (some opts))._silent = g._silent) ∧
    ((opts.console.getD (ConsoleOpts.mk none none)).level = none →
        (Logger.globalReconfigure g (some opts))._level = g._level) ∧
    (opts.replicants = none →
        (Logger.globalReconfigure g (some opts))._shouldLogReplicants =
          g._shouldLogReplicants) ∧
    Logger.globalReconfigure g none = g ∧
    Logger.globalReconfigure g (some (Opts.mk none none)) = g := by
  refine ⟨?_, ?_, ?_, rfl, rfl⟩
  · intro h
    rw [Logger.globalReconfigure, configure_silent_eq]
    simp [h]
  · intro h
    rw [Logger.globalReconfigure, configure_level_eq]
    simp [h]
  · intro h
    rw [Logger.globalReconfigure, configure_repl_eq]
    simp [h]

/-- Witness for C4: reconfiguring with `{console: \x7b\x7d}` (both console
entries absent, `replicants` absent) leaves every field of a concrete state
unchanged. -/
theorem c4_witness :
    (Logger.globalReconfigure (LoggerGlobals.mk "warn" false true)
        (some (Opts.mk (some (ConsoleOpts.mk none none)) none)))._silent =
      (LoggerGlobals.mk "warn" false true)._silent ∧
    (Logger.globalReconfigure (LoggerGlobals.mk "warn" false true)
        (some (Opts.mk (some (ConsoleOpts.mk none none)) none)))._level =
      (LoggerGlobals.mk "warn" false true)._level ∧
    (Logger.globalReconfigure (LoggerGlobals.mk "warn" false true)
        (some (Opts.mk (some (ConsoleOpts.mk none none)) none)))._shouldLogReplicants =
      (LoggerGlobals.mk "warn" false true)._shouldLogReplicants :=
  ⟨(c4_partial_reconfigure (LoggerGlobals.mk "warn" false true)
      (Opts.mk (some (ConsoleOpts.mk none none)) none)).1 rfl,
   (c4_partial_reconfigure (LoggerGlobals.mk "warn" false true)
      (Opts.mk (some (ConsoleOpts.mk none none)) none)).2.1 rfl,
   (c4_partial_reconfigure (LoggerGlobals.mk "warn" false true)
      (Opts.mk (some (ConsoleOpts.mk none none)) none)).2.2.1 rfl⟩

/-- Claim C10: in an `error` call, the escalation and the console emission sit
behind the same two guards, and the guards come first; so whenever the Raven
capture happens the sink invocation happens too — an `error` call never
escalates without also emitting. -/
theorem c10_escalation_implies_emission (g : LoggerGlobals) (raven : Bool)
    (inst : LoggerInst) (args : List JSValue) (stack : String)
    (h : (Logger.call Method.error g raven inst args stack).escalation.isSome = true) :
    (Logger.call Method.error g raven inst args stack).sink.isSome = true := by
  revert h
  simp only [Logger.call, Logger.error]
  split_ifs <;> simp

/-- Witness for C10: a concrete `error` call that escalates (console enabled,
threshold `"info"`, Raven present) also emits. -/
theorem c10_witness :
    (Logger.call Method.error (LoggerGlobals.mk "info" false false) true
        (Logger.new "x") [] "").sink.isSome = true :=
  c10_escalation_implies_emission (LoggerGlobals.mk "info" false false) true
    (Logger.new "x") [] "" (by decide)

/-- Reconfigurations that never set `console.enabled` to `true` keep `_silent`
at `true`. -/
theorem configure_foldl_silent (history : List (Option Opts)) (g : LoggerGlobals)
    (h1 : g._silent = true) (h2 : ∀ o ∈ history, enablesConsole o = false) :
    (history.foldl _configure g)._silent = true := by
  induction history generalizing g with
  | nil => exact h1
  | cons o rest ih =>
    rw [List.foldl_cons]
    refine ih (_configure g o) ?_ ?_
    · rw [configure_silent_eq]
      have ho : ¬ (((o.getD (Opts.mk none none)).console.getD
          (ConsoleOpts.mk none none)).enabled = some true) := by
        simpa [enablesConsole] using h2 o (List.mem_cons_self o rest)
      cases hEn : ((o.getD (Opts.mk none none)).console.getD
          (ConsoleOpts.mk none none)).enabled with
      | none => exact h1
      | some e =>
        cases e
        · rfl
        · exact absurd hEn ho
    · intro o' ho'
      exact h2 o' (List.mem_cons_of_mem o ho')

/-- Claim C5: the factory called with no configuration leaves the defaults
`_level = "info"`, `_silent = true` (console disabled), `_shouldLogReplicants =
false`; every emission call of every method — the five levels and `replicants`
— then produces no sink invocation and no escalation; and this persists across
any sequence of reconfigurations none of which sets `console.enabled` to
`true`. -/
theorem c5_defaults :
    loggerFactory none = LoggerGlobals.mk "info" true false ∧
    (∀ (m : Method) (raven : Bool) (inst : LoggerInst) (args : List JSValue) (stack : String),
        Logger.call m (loggerFactory none) raven inst args stack = EmitResult.mk none none) ∧
    (∀ (history : List (Option Opts)), (∀ o ∈ history, enablesConsole o = false) →
        ∀ (m : Method) (raven : Bool) (inst : LoggerInst) (args : List JSValue) (stack : String),
          Logger.call m (history.foldl _configure (loggerFactory none)) raven inst args stack =
            EmitResult.mk none none) := by
  refine ⟨rfl, ?_, ?_⟩
  · intro m raven inst args stack
    exact silent_none m _ raven inst args stack rfl
  · intro history hh m raven inst args stack
    exact silent_none m _ raven inst args stack (configure_foldl_silent history _ rfl hh)

/-- Witness for C5: after the default initialization followed by two
reconfigurations that do not enable the console (one turns on replicant
logging, the other sets `enabled: false` and level `"trace"`), an `error` call
with Raven present still produces nothing. -/
theorem c5_witness :
    Logger.call Method.error
        ([some (Opts.mk none (some true)),
          some (Opts.mk (some (ConsoleOpts.mk (some false) (some "trace"))) none)].foldl
          _configure (loggerFactory none)) true (Logger.new "x") [] "" =
      EmitResult.mk none none :=
  c5_defaults.2.2
    [some (Opts.mk none (some true)),
     some (Opts.mk (some (ConsoleOpts.mk (some false) (some "trace"))) none)]
    (by decide) Method.error true (Logger.new "x") [] ""

/-- Claim C6: every emission that reaches the sink uses the mapped channel —
`trace` and `debug` are forwarded to the `'info'` channel, `warn` to `'warn'`,
and `error` to `'error'`. -/
theorem c6_channel_mapping (g : LoggerGlobals) (raven : Bool) (inst : LoggerInst)
    (args : List JSValue) (stack : String) :
    (∀ c, (Logger.call Method.trace g raven inst args stack).sink = some c →
        c.channel = "info") ∧
    (∀ c, (Logger.call Method.debug g raven inst args stack).sink = some c →
        c.channel = "info") ∧
    (∀ c, (Logger.call Method.warn g raven inst args stack).sink = some c →
        c.channel = "warn") ∧
    (∀ c, (Logger.call Method.error g raven inst args stack).sink = some c →
        c.channel = "error") := by
  refine ⟨?_, ?_, ?_, ?_⟩ <;> intro c h <;>
    simp only [Logger.call, Logger.trace, Logger.debug, Logger.warn, Logger.error] at h <;>
    split_ifs at h <;> simp at h <;> rw [← h] <;> rfl

/-- Witness for C6: with threshold `"trace"` and console enabled, concrete
`trace`, `warn` and `error` calls reach the sink on their mapped channels. -/
theorem c6_witness :
    (Logger._invoke "info" (Logger.new "w") [] "").channel = "info" ∧
    (Logger._invoke "warn" (Logger.new "w") [] "").channel = "warn" ∧
    (Logger._invoke "error" (Logger.new "w") [] "").channel = "error" :=
  ⟨(c6_channel_mapping (LoggerGlobals.mk "trace" false false) false (Logger.new "w") [] "").1
      (Logger._invoke "info" (Logger.new "w") [] "") (by decide),
   (c6_channel_mapping (LoggerGlobals.mk "trace" false false) false (Logger.new "w") [] "").2.2.1
      (Logger._invoke "warn" (Logger.new "w") [] "") (by decide),
   (c6_channel_mapping (LoggerGlobals.mk "trace" false false) false (Logger.new "w") [] "").2.2.2
      (Logger._invoke "error" (Logger.new "w") [] "") (by decide)⟩

/-- Claim C7: every non-suppressed emission forwards exactly the sequence made
of the bracketed current instance name, then the supplied values in order, then
the caller-context string last; and a logger instance renamed after
construction behaves as one constructed with the new name (the prefix is
computed from the current name at call time, nothing is cached at
construction). -/
theorem c7_message_sequence (g : LoggerGlobals) (raven : Bool) (inst : LoggerInst)
    (args : List JSValue) (stack : String) (m : Method) :
    (∀ c, (Logger.call m g raven inst args stack).sink = some c →
        c.message =
          JSValue.str ("[" ++ inst.name ++ "]") ::
            (args ++ [JSValue.str (extractCaller stack)])) ∧
    (∀ n0 n1 : String, { Logger.new n0 with name := n1 } = Logger.new n1) := by
  refine ⟨?_, fun n0 n1 => rfl⟩
  intro c h
  cases m <;>
    simp only [Logger.call, Logger.trace, Logger.debug, Logger.info, Logger.warn, Logger.error,
      Logger.replicants] at h <;>
    split_ifs at h <;> simp at h <;> rw [← h] <;> rfl

/-- Witness for C7: a `warn` call on logger `"db"` with two values and a
four-line stack trace forwards `["[db]", "slow query", 120, "main (app.js:3)"]`. -/
theorem c7_witness :
    (Logger._invoke "warn" (Logger.new "db") [JSValue.str "slow query", JSValue.num 120]
        "Error\na\nb\n    at main (app.js:3)").message =
      [JSValue.str "[db]", JSValue.str "slow query", JSValue.num 120,
        JSValue.str "main (app.js:3)"] := by
  have h := (c7_message_sequence (LoggerGlobals.mk "warn" false false) false (Logger.new "db")
      [JSValue.str "slow query", JSValue.num 120] "Error\na\nb\n    at main (app.js:3)"
      Method.warn).1
      (Logger._invoke "warn" (Logger.new "db") [JSValue.str "slow query", JSValue.num 120]
        "Error\na\nb\n    at main (app.js:3)") (by decide)
  exact h.trans (by decide)

/-- Dropping leading spaces skips any run of space characters. -/
theorem dropLeadingSpaces_append (k : Nat) (cs : List Char) :
    dropLeadingSpaces (List.replicate k ' ' ++ cs) = dropLeadingSpaces cs := by
  induction k with
  | zero => rfl
  | succ n ih => simpa [List.replicate_succ, dropLeadingSpaces] using ih

/-- Claim C8: caller-context extraction splits the captured stack-trace string
into lines; when there are at least four lines the fourth is selected and
otherwise the result is the empty string; the space-indented `at `-style and
`@`-style leading decorations are stripped from the selected line; being a
total function into `String`, it always returns a string and never fails. -/
theorem c8_caller_extraction (stack : String) :
    (¬ 4 ≤ (splitOnChar '\n' stack.data).length → extractCaller stack = "") ∧
    (4 ≤ (splitOnChar '\n' stack.data).length →
        extractCaller stack =
          stripFirefox (stripChrome (String.mk ((splitOnChar '\n' stack.data).getD 3 [])))) ∧
    (∀ (k : Nat) (cs : List Char),
        stripChrome (String.mk (List.replicate k ' ' ++ 'a' :: 't' :: ' ' :: cs)) =
          String.mk cs) ∧
    (∀ (k : Nat) (cs : List Char),
        stripFirefox (String.mk (List.replicate k ' ' ++ '@' :: cs)) = String.mk cs) := by
  refine ⟨?_, ?_, ?_, ?_⟩
  · intro h
    simp [extractCaller, h]
    rfl
  · intro h
    simp [extractCaller, h]
  · intro k cs
    simp [stripChrome, dropLeadingSpaces_append, dropLeadingSpaces, charsStartWith]
  · intro k cs
    simp [stripFirefox, dropLeadingSpaces_append, dropLeadingSpaces, charsStartWith]

/-- Witness for C8: a one-line stack yields the empty string, and a five-line
stack yields its fourth line with the Chrome decoration stripped. -/
theorem c8_witness :
    extractCaller "oops" = "" ∧
    extractCaller "Error\na\nb\n  at main (app.js:3)\nc" = "main (app.js:3)" :=
  ⟨(c8_caller_extraction "oops").1 (by decide),
   ((c8_caller_extraction "Error\na\nb\n  at main (app.js:3)\nc").2.1 (by decide)).trans
     (by decide)⟩

/-- Claim C9: when a Raven client was supplied, console output is enabled and
the threshold admits `error`, an `error` call performs exactly one capture,
whose error value wraps the message formatted from the bracketed prefix and the
transformed arguments (composite values deep-rendered by `formatArg`/`inspect`
with no depth limit, primitives passed through), tagged
`'client @nodecg/logger'`; when console output is disabled the capture does not
happen; and when the client is absent there is no capture and the console
emission is exactly what it would otherwise be. -/
theorem c9_error_escalation (g : LoggerGlobals) (raven : Bool) (inst : LoggerInst)
    (args : List JSValue) (stack : String) :
    (raven = true → g._silent = false → jsGtNat (LOG_LEVELS g._level) 4 = false →
        (Logger.error g raven inst args stack).2 =
          some (RavenCapture.mk
            (JSError.mk (formatJS ("[" ++ inst.name ++ "]") (args.map formatArg)))
            "client @nodecg/logger")) ∧
    (g._silent = true → (Logger.error g raven inst args stack).2 = none) ∧
    (Logger.error g false inst args stack).2 = none ∧
    (Logger.error g false inst args stack).1 = (Logger.error g raven inst args stack).1 := by
  refine ⟨?_, ?_, ?_, ?_⟩
  · intro hr hs hgt
    simp [Logger.error, hs, hgt, hr]
  · intro hs
    simp [Logger.error, hs]
  · simp only [Logger.error]
    split_ifs <;> trivial
  · simp only [Logger.error]
    split_ifs <;> trivial

/-- Witness for C9: threshold `"error"`, console enabled, Raven present; an
`error` call with a string and a composite object captures exactly one error
wrapping `"[x] boom \x7b code: 500 \x7d"` with the fixed tag. -/
theorem c9_witness :
    (Logger.error (LoggerGlobals.mk "error" false false) true (Logger.new "x")
        [JSValue.str "boom", JSValue.obj (JSFields.cons "code" (JSValue.num 500) JSFields.nil)]
        "").2 =
      some (RavenCapture.mk (JSError.mk "[x] boom \x7b code: 500 \x7d")
        "client @nodecg/logger") :=
  ((c9_error_escalation (LoggerGlobals.mk "error" false false) true (Logger.new "x")
      [JSValue.str "boom", JSValue.obj (JSFields.cons "code" (JSValue.num 500) JSFields.nil)]
      "").1 rfl rfl (by decide)).trans (by decide)

end BrowserLogger
